import Mathlib

/-!
Shallow embedding of the ReCo secondhand-recommendation pipeline
(`src/ReCo/src`): the persona data model (`core/state.py`), the
persona classifier (`agents/persona_classifier.py`), the two-stage
product matcher (`agents/product_matching.py`), the fusion ranker
(`agents/ranker.py`) and the orchestrator (`agents/router.py`).

Numbers are modelled as exact rationals (ℚ); the square roots taken by
`np.sqrt` are modelled by `Real.sqrt`, so confidences live in ℝ.  The
decision logic of the classifier compares square roots of sums of
squares; since `Real.sqrt` is strictly monotone on nonnegatives, the
executable embedding compares the squared distances directly, and the
bridging lemmas `calculate_l2_lt_iff` and `confGeB_iff` prove that the
comparisons used are exactly the source's comparisons.

External collaborators (the RAG retriever, the database service, the
rules file contents, the LangGraph host, wall-clock time) are
parameters of the functions that call them, mirroring the narrow data
contracts of the source.
-/

namespace ReCo

/-- Five persona axes of `PersonaVector` (`core/state.py`). -/
inductive Axis where
  | trust_safety
  | quality_condition
  | remote_transaction
  | activity_responsiveness
  | price_flexibility
  deriving DecidableEq, Repr

/-- Ten persona labels of the `PersonaType` enum (`core/state.py`), in
declaration order. -/
inductive PersonaType where
  | LOCAL_OFFLINE
  | FAST_SHIPPING_ONLINE
  | HYBRID_TRADE
  | TRUST_SAFETY_PRO
  | HIGH_QUALITY_NEW
  | NICHE_SPECIALIST
  | POWER_SELLER
  | NEGOTIATION_FRIENDLY
  | RESPONSIVE_KIND
  | BALANCED_LOW_ACTIVITY
  deriving DecidableEq, Repr

/-- String `.value` of each `PersonaType` member. -/
def personaName : PersonaType → String
  | .LOCAL_OFFLINE => "local_offline"
  | .FAST_SHIPPING_ONLINE => "fast_shipping_online"
  | .HYBRID_TRADE => "hybrid_trade"
  | .TRUST_SAFETY_PRO => "trust_safety_pro"
  | .HIGH_QUALITY_NEW => "high_quality_new"
  | .NICHE_SPECIALIST => "niche_specialist"
  | .POWER_SELLER => "power_seller"
  | .NEGOTIATION_FRIENDLY => "negotiation_friendly"
  | .RESPONSIVE_KIND => "responsive_kind"
  | .BALANCED_LOW_ACTIVITY => "balanced_low_activity"

/-- The 5-axis persona vector (`PersonaVector` TypedDict). -/
structure PersonaVector where
  trust_safety : ℚ
  quality_condition : ℚ
  remote_transaction : ℚ
  activity_responsiveness : ℚ
  price_flexibility : ℚ
  deriving DecidableEq, Repr

/-- Axis-keyed access to a `PersonaVector` (`vector[key]` in the source). -/
def axisVal (v : PersonaVector) : Axis → ℚ
  | .trust_safety => v.trust_safety
  | .quality_condition => v.quality_condition
  | .remote_transaction => v.remote_transaction
  | .activity_responsiveness => v.activity_responsiveness
  | .price_flexibility => v.price_flexibility

/-- Prototype vectors of `PERSONA_PROTOTYPES` (`core/state.py`). -/
def prototype : PersonaType → PersonaVector
  | .LOCAL_OFFLINE => ⟨25, 0, 0, 25, 50⟩
  | .FAST_SHIPPING_ONLINE => ⟨75, 25, 75, 50, 25⟩
  | .HYBRID_TRADE => ⟨50, 50, 50, 50, 50⟩
  | .TRUST_SAFETY_PRO => ⟨100, 50, 50, 75, 25⟩
  | .HIGH_QUALITY_NEW => ⟨50, 100, 25, 50, 25⟩
  | .NICHE_SPECIALIST => ⟨50, 75, 50, 50, 25⟩
  | .POWER_SELLER => ⟨50, 50, 50, 100, 25⟩
  | .NEGOTIATION_FRIENDLY => ⟨25, 25, 25, 25, 100⟩
  | .RESPONSIVE_KIND => ⟨75, 50, 50, 100, 25⟩
  | .BALANCED_LOW_ACTIVITY => ⟨50, 50, 50, 25, 50⟩

/-- Iteration order of `PERSONA_PROTOTYPES.items()` (Python dicts keep
insertion order, so this is the declaration order of the table). -/
def personaList : List PersonaType :=
  [.LOCAL_OFFLINE, .FAST_SHIPPING_ONLINE, .HYBRID_TRADE, .TRUST_SAFETY_PRO,
   .HIGH_QUALITY_NEW, .NICHE_SPECIALIST, .POWER_SELLER, .NEGOTIATION_FRIENDLY,
   .RESPONSIVE_KIND, .BALANCED_LOW_ACTIVITY]

/-- `PersonaClassifier.normalize_slider_inputs`: read each of the five
slider values with default `50.0` and clamp it to `[0, 100]` via
`max(0.0, min(100.0, value))`. -/
def normalize_slider_inputs (user_prefs : Axis → Option ℚ) : PersonaVector :=
  { trust_safety := max 0 (min 100 ((user_prefs .trust_safety).getD 50)),
    quality_condition := max 0 (min 100 ((user_prefs .quality_condition).getD 50)),
    remote_transaction := max 0 (min 100 ((user_prefs .remote_transaction).getD 50)),
    activity_responsiveness := max 0 (min 100 ((user_prefs .activity_responsiveness).getD 50)),
    price_flexibility := max 0 (min 100 ((user_prefs .price_flexibility).getD 50)) }

/-- Squared L2 distance between two persona vectors: the sum under the
square root in `PersonaClassifier.calculate_l2_distance`. -/
def dsq (v w : PersonaVector) : ℚ :=
  (v.trust_safety - w.trust_safety) ^ 2 +
  (v.quality_condition - w.quality_condition) ^ 2 +
  (v.remote_transaction - w.remote_transaction) ^ 2 +
  (v.activity_responsiveness - w.activity_responsiveness) ^ 2 +
  (v.price_flexibility - w.price_flexibility) ^ 2

/-- `PersonaClassifier.calculate_l2_distance`: `np.sqrt` of the sum of
squared per-axis differences. -/
noncomputable def calculate_l2_distance (v w : PersonaVector) : ℝ :=
  Real.sqrt (dsq v w : ℝ)

/-- One iteration of the nearest-prototype loop in
`apply_rules_threshold`: `min_distance` starts at infinity,
modelled as `none`, and is replaced when the candidate distance is
strictly smaller.  The comparison is made on squared distances; the
lemma `calculate_l2_lt_iff` shows this agrees with the source's
comparison of the square roots. -/
def nearestStep (v : PersonaVector) (best : PersonaType × Option ℚ) (p : PersonaType) :
    PersonaType × Option ℚ :=
  let d := dsq v (prototype p)
  match best.2 with
  | none => (p, some d)
  | some m => if d < m then (p, some d) else best

/-- The nearest-prototype fold of `apply_rules_threshold` (lines 83-92):
`best_persona` starts at `HYBRID_TRADE` and `min_distance` at infinity. -/
def nearestProto (v : PersonaVector) : PersonaType × Option ℚ :=
  personaList.foldl (nearestStep v) (PersonaType.HYBRID_TRADE, none)

/-- Distance-based confidence (`apply_rules_threshold` lines 94-96):
`1 - distance / sqrt(5 * 100**2)`, as a function of the squared
distance. -/
noncomputable def distConfidence (d2 : ℚ) : ℝ :=
  1 - Real.sqrt (d2 : ℝ) / Real.sqrt (5 * 100 ^ 2)

/-- Decidable form of the source's comparison
`distance_confidence >= min_confidence` (line 123), expressed on the
squared distance.  `confGeB_iff` proves it equivalent to
`min_confidence ≤ distConfidence d2`. -/
def confGeB (d2 mc : ℚ) : Bool :=
  if 1 < mc then false else decide (d2 ≤ (1 - mc) ^ 2 * (5 * 100 ^ 2))

/-- One persona's entry in `rules.json`'s `persona_rules` table: an
optional `min_confidence` (read with default `0.5`) plus `min_`/`max_`
per-axis bounds. -/
structure PersonaRule where
  min_confidence : Option ℚ
  min_bounds : List (Axis × ℚ)
  max_bounds : List (Axis × ℚ)

/-- The per-axis bound checks of `apply_rules_threshold` (lines 104-121):
a `min_<axis>` condition fails when `user_value < threshold`, a
`max_<axis>` condition fails when `user_value > threshold`. -/
def conditions_met (rule : PersonaRule) (v : PersonaVector) : Bool :=
  (rule.min_bounds.all fun c => !decide (axisVal v c.1 < c.2)) &&
  (rule.max_bounds.all fun c => !decide (c.2 < axisVal v c.1))

/-- Contents of `rules.json` as consumed by the classifier:
`persona_rules` keyed by persona name, and
`persona_thresholds.fallback_persona` (read with default
`"hybrid_trade"`). -/
structure RulesConfig where
  persona_rules : PersonaType → Option PersonaRule
  fallback_persona : Option PersonaType

/-- The configuration produced by `_load_rules` when `rules.json` is
missing: the method catches `FileNotFoundError` and returns `{}`. -/
def emptyRules : RulesConfig :=
  { persona_rules := fun _ => none, fallback_persona := none }

/-- Python's `max` over a nonempty list (used for
`max([c["similarity"] for c in persona_candidates])`). -/
def maxList : List ℚ → ℚ
  | [] => 0
  | x :: xs => xs.foldl max x

/-- `PersonaClassifier.apply_rules_threshold`.  The retrieval candidates
are abstracted to their similarity scores.  The initial
`best_confidence = 0.0` / `best_reason` assignments of lines 80-81 are
always overwritten before being returned and are omitted. -/
noncomputable def apply_rules_threshold (cfg : RulesConfig) (v : PersonaVector)
    (persona_candidates : List ℚ) : PersonaType × ℝ × String :=
  let best := nearestProto v
  let best_persona := best.1
  let min_d2 := best.2.getD 0
  let persona_name := personaName best_persona
  let base : PersonaType × ℝ × String :=
    match cfg.persona_rules best_persona with
    | some rule =>
        if conditions_met rule v && confGeB min_d2 (rule.min_confidence.getD 0.5) then
          (best_persona, distConfidence min_d2, "규칙 매칭 성공: " ++ persona_name)
        else
          let fallback := cfg.fallback_persona.getD PersonaType.HYBRID_TRADE
          (fallback, (0.5 : ℝ), "규칙 미충족, Fallback 사용: " ++ personaName fallback)
    | none => (best_persona, distConfidence min_d2, "벡터 거리 기반: " ++ persona_name)
  if persona_candidates.isEmpty then base
  else (base.1, 0.7 * base.2.1 + 0.3 * (maxList persona_candidates : ℝ),
        base.2.2 ++ " + RAG 보정")

/-- Result record of `classify_persona`. -/
structure ClassificationOutput where
  persona_type : PersonaType
  confidence : ℝ
  vector : PersonaVector
  matched_prototype : PersonaVector
  reason : String
  rag_candidates : List ℚ

/-- `PersonaClassifier.classify_persona`: normalize the sliders, then
apply `apply_rules_threshold`; the RAG candidates returned by
`rag_classification` are a parameter (external retrieval). -/
noncomputable def classify_persona (user_prefs : Axis → Option ℚ) (cfg : RulesConfig)
    (persona_candidates : List ℚ) : ClassificationOutput :=
  let user_vector := normalize_slider_inputs user_prefs
  let r := apply_rules_threshold cfg user_vector persona_candidates
  { persona_type := r.1, confidence := r.2.1, vector := user_vector,
    matched_prototype := prototype r.1, reason := r.2.2,
    rag_candidates := persona_candidates }

/-- User preferences whose five sliders are exactly a given vector. -/
def prefsOfVector (v : PersonaVector) : Axis → Option ℚ :=
  fun a => some (axisVal v a)

/-- The `MATCHING_WEIGHTS` table (`core/state.py`), in dict declaration
order. -/
def matching_weights : List (Axis × ℚ) :=
  [(.trust_safety, 0.24), (.quality_condition, 0.18), (.remote_transaction, 0.18),
   (.activity_responsiveness, 0.22), (.price_flexibility, 0.18)]

/-- One iteration of the `_calculate_persona_score` loop: when the axis
is present in both vectors, add `weight * (1 - |u - s| / 100)` to the
score and the weight to the total weight; otherwise skip the axis. -/
def persona_score_step (user_vector seller_vector : Axis → Option ℚ)
    (acc : ℚ × ℚ) (kw : Axis × ℚ) : ℚ × ℚ :=
  match user_vector kw.1, seller_vector kw.1 with
  | some uv, some sv => (acc.1 + kw.2 * (1 - |uv - sv| / 100), acc.2 + kw.2)
  | _, _ => acc

/-- `ProductMatching._calculate_persona_score`: per-axis weighted
similarity over the axes present in both vectors, divided by the total
applicable weight, or `0.0` when no weight applies.  Seller vectors
come from external data and may miss axes, hence `Axis → Option ℚ`. -/
def calculate_persona_score (user_vector seller_vector : Axis → Option ℚ) : ℚ :=
  let r := matching_weights.foldl (persona_score_step user_vector seller_vector) (0, 0)
  if 0 < r.2 then r.1 / r.2 else 0

/-- A seller record as fetched from the data source. -/
structure Seller where
  seller_id : String
  seller_name : String
  persona_vector : Axis → Option ℚ
  total_sales : ℚ
  avg_rating : ℚ
  response_time_hours : ℚ

/-- `ProductMatching._calculate_seller_quality_score`. -/
def calculate_seller_quality_score (seller : Seller) : ℚ :=
  let rating_score := min (seller.avg_rating / 5) 1
  let sales_score := min (seller.total_sales / 1000) 1
  let response_score := max 0 (1 - seller.response_time_hours / 24)
  0.5 * rating_score + 0.3 * sales_score + 0.2 * response_score

/-- One entry of the `seller_scores` list built by
`match_user_seller_persona`. -/
structure SellerScore where
  seller_id : String
  seller_name : String
  persona_score : ℚ
  quality_score : ℚ
  final_score : ℚ
  persona_vector : Axis → Option ℚ
  total_sales : ℚ
  avg_rating : ℚ
  response_time_hours : ℚ

/-- The dict appended for one seller in `match_user_seller_persona`. -/
def seller_entry (user_persona : Axis → Option ℚ) (seller : Seller) : SellerScore :=
  let persona_score := calculate_persona_score user_persona seller.persona_vector
  let quality_score := calculate_seller_quality_score seller
  { seller_id := seller.seller_id, seller_name := seller.seller_name,
    persona_score := persona_score, quality_score := quality_score,
    final_score := 0.7 * persona_score + 0.3 * quality_score,
    persona_vector := seller.persona_vector, total_sales := seller.total_sales,
    avg_rating := seller.avg_rating, response_time_hours := seller.response_time_hours }

/-- `ProductMatching.match_user_seller_persona`: score every seller and
sort descending by `final_score` (Python's stable `list.sort` with
`reverse=True`, modelled by the stable `List.mergeSort`). -/
def match_user_seller_persona (user_persona : Axis → Option ℚ) (sellers : List Seller) :
    List SellerScore :=
  (sellers.map (seller_entry user_persona)).mergeSort
    (fun a b => decide (b.final_score ≤ a.final_score))

/-- A product record as fetched from the data source. -/
structure Product where
  product_id : String
  seller_id : String
  title : String
  price : ℚ
  category : String
  condition : String
  location : String
  description : String
  view_count : ℚ
  like_count : ℚ
  deriving DecidableEq

/-- The `condition_scores` lookup of
`_calculate_product_feature_score`, default `0.5`. -/
def condition_score (condition : String) : ℚ :=
  if condition = "새상품" then 1.0
  else if condition = "거의새것" then 0.8
  else if condition = "중고" then 0.6
  else if condition = "사용감있음" then 0.4
  else 0.5

/-- `ProductMatching._calculate_product_feature_score`. -/
def calculate_product_feature_score (product : Product) : ℚ :=
  let view_score := min (product.view_count / 1000) 1
  let like_score := min (product.like_count / 100) 1
  0.4 * view_score + 0.3 * like_score + 0.3 * condition_score product.condition

/-- Scaled weight triple attached to ranked items
(`persona_weights` in the ranker). -/
structure FWeights where
  persona : ℚ := 0
  quality : ℚ := 0
  feature : ℚ := 0
  deriving DecidableEq, Repr

/-- One item dict flowing from `match_seller_product_features` through
the `FusionRanker` stages.  The source accumulates keys on a dict; here
all keys are present from the start, the later stages overwriting the
fields they add (`ranking_factors` only duplicates fields already
stored and is not repeated). -/
structure Item where
  product_id : String := ""
  seller_id : String := ""
  seller_name : String := ""
  title : String := ""
  price : ℚ := 0
  category : String := ""
  condition : String := ""
  location : String := ""
  description : String := ""
  seller_persona_score : ℚ := 0
  seller_quality_score : ℚ := 0
  product_feature_score : ℚ := 0
  final_item_score : ℚ := 0
  seller_rating : ℚ := 0
  view_count : ℚ := 0
  like_count : ℚ := 0
  norm_persona_score : ℚ := 0
  norm_quality_score : ℚ := 0
  norm_feature_score : ℚ := 0
  weighted_score : ℚ := 0
  persona_weights : FWeights := {}
  diversity_bonus : ℚ := 0
  diversity_score : ℚ := 0
  final_score : ℚ := 0
  deriving DecidableEq

/-- The dict appended for one product in
`match_seller_product_features`. -/
def item_entry (s : SellerScore) (product : Product) : Item :=
  let product_feature_score := calculate_product_feature_score product
  { product_id := product.product_id, seller_id := s.seller_id,
    seller_name := s.seller_name, title := product.title, price := product.price,
    category := product.category, condition := product.condition,
    location := product.location, description := product.description,
    seller_persona_score := s.persona_score, seller_quality_score := s.quality_score,
    product_feature_score := product_feature_score,
    final_item_score := 0.6 * s.final_score + 0.4 * product_feature_score,
    seller_rating := s.avg_rating, view_count := product.view_count,
    like_count := product.like_count }

/-- `ProductMatching.match_seller_product_features`: for each scored
seller take its products (`p["seller_id"] == seller_id`), score them,
and sort the whole list descending by `final_item_score`. -/
def match_seller_product_features (seller_scores : List SellerScore)
    (products : List Product) : List Item :=
  ((seller_scores.map fun s =>
      (products.filter fun p => p.seller_id == s.seller_id).map (item_entry s)).flatten).mergeSort
    (fun a b => decide (b.final_item_score ≤ a.final_item_score))

/-- Python's `max` over a nonempty list of channel scores; the `[]`
case is unreachable behind the emptiness guards of the source. -/
def listMax : List ℚ → ℚ
  | [] => 0
  | x :: xs => xs.foldl max x

/-- Python's `min` over a nonempty list of channel scores. -/
def listMin : List ℚ → ℚ
  | [] => 0
  | x :: xs => xs.foldl min x

/-- The inner `normalize_list` of `FusionRanker._normalize_scores`:
Min-Max normalization, with `[0.5] * len(scores)` when the list is
empty or constant. -/
def normalize_list (scores : List ℚ) : List ℚ :=
  if scores.isEmpty ∨ listMax scores = listMin scores then
    List.replicate scores.length 0.5
  else
    scores.map fun score => (score - listMin scores) / (listMax scores - listMin scores)

/-- The zipping loop at the end of `_normalize_scores`: each item is
copied with the three normalized channel values at its index. -/
def attach_norms : List Item → List ℚ → List ℚ → List ℚ → List Item
  | item :: items, a :: as_, b :: bs, c :: cs =>
      { item with norm_persona_score := a, norm_quality_score := b,
                  norm_feature_score := c } :: attach_norms items as_ bs cs
  | _, _, _, _ => []

/-- `FusionRanker._normalize_scores`: Min-Max normalize the persona,
quality and feature channels independently. -/
def normalize_scores (seller_item_scores : List Item) : List Item :=
  if seller_item_scores.isEmpty then []
  else
    let norm_persona := normalize_list (seller_item_scores.map fun i => i.seller_persona_score)
    let norm_quality := normalize_list (seller_item_scores.map fun i => i.seller_quality_score)
    let norm_feature := normalize_list (seller_item_scores.map fun i => i.product_feature_score)
    attach_norms seller_item_scores norm_persona norm_quality norm_feature

/-- The `persona_weights` table of `FusionRanker._apply_persona_weights`.
Every one of the ten labels has an entry, so the dict's
`{persona 0.4, quality 0.3, feature 0.3}` default is never reached for
a `PersonaType` key. -/
def persona_weights_table : PersonaType → FWeights
  | .TRUST_SAFETY_PRO => ⟨0.6, 0.3, 0.1⟩
  | .HIGH_QUALITY_NEW => ⟨0.4, 0.4, 0.2⟩
  | .FAST_SHIPPING_ONLINE => ⟨0.5, 0.3, 0.2⟩
  | .LOCAL_OFFLINE => ⟨0.6, 0.2, 0.2⟩
  | .NEGOTIATION_FRIENDLY => ⟨0.5, 0.2, 0.3⟩
  | .POWER_SELLER => ⟨0.4, 0.4, 0.2⟩
  | .RESPONSIVE_KIND => ⟨0.5, 0.3, 0.2⟩
  | .NICHE_SPECIALIST => ⟨0.4, 0.3, 0.3⟩
  | .BALANCED_LOW_ACTIVITY => ⟨0.4, 0.3, 0.3⟩
  | .HYBRID_TRADE => ⟨0.4, 0.3, 0.3⟩

/-- The persona-classification fields consumed downstream of the
classifier (`persona_type`, `confidence`, `vector`); the ranker treats
the stored confidence as a plain number, modelled in ℚ. -/
structure PClass where
  persona_type : PersonaType
  confidence : ℚ
  vector : PersonaVector
  deriving DecidableEq

/-- `FusionRanker._apply_persona_weights`: scale the persona's weight
triple by `confidence_factor = 0.5 + confidence * 0.5` and compute each
item's `weighted_score`. -/
def apply_persona_weights (normalized_scores : List Item) (pc : PClass) : List Item :=
  let weights0 := persona_weights_table pc.persona_type
  let confidence_factor := 0.5 + pc.confidence * 0.5
  let weights : FWeights :=
    ⟨weights0.persona * confidence_factor, weights0.quality * confidence_factor,
     weights0.feature * confidence_factor⟩
  normalized_scores.map fun item =>
    { item with
      weighted_score := weights.persona * item.norm_persona_score +
        weights.quality * item.norm_quality_score +
        weights.feature * item.norm_feature_score,
      persona_weights := weights }

/-- The `enumerate` loop of `_apply_diversity_bonus`: the item at index
`i` out of `total` receives `rank_bonus = bonus * (1 - i / total)`. -/
def diversity_assign (bonus : ℚ) (total : ℕ) : ℕ → List Item → List Item
  | _, [] => []
  | i, item :: rest =>
      let rank_bonus := bonus * (1 - (i : ℚ) / (total : ℚ))
      { item with diversity_bonus := rank_bonus,
                  diversity_score := item.weighted_score + rank_bonus } ::
        diversity_assign bonus total (i + 1) rest

/-- `FusionRanker._apply_diversity_bonus`: category and seller
diversity are `unique_count / total_count`; the bonus pool is
`0.1 * (category_diversity + seller_diversity) / 2`, distributed by
`diversity_assign`. -/
def apply_diversity_bonus (weighted_scores : List Item) : List Item :=
  if weighted_scores.length ≤ 1 then weighted_scores
  else
    let categories := weighted_scores.map fun i => i.category
    let category_diversity : ℚ :=
      if categories = [] then 0 else (categories.dedup.length : ℚ) / (categories.length : ℚ)
    let sellers := weighted_scores.map fun i => i.seller_id
    let seller_diversity : ℚ :=
      if sellers = [] then 0 else (sellers.dedup.length : ℚ) / (sellers.length : ℚ)
    let diversity_bonus := 0.1 * (category_diversity + seller_diversity) / 2
    diversity_assign diversity_bonus weighted_scores.length 0 weighted_scores

/-- `FusionRanker._calculate_final_scores`: `final_score` is the
diversity-adjusted score; the list is then sorted descending by
`final_score` (stable sort). -/
def calculate_final_scores (diversity_scores : List Item) : List Item :=
  (diversity_scores.map fun item => { item with final_score := item.diversity_score }).mergeSort
    (fun a b => decide (b.final_score ≤ a.final_score))

/-- `FusionRanker.fuse_scores`: the four scoring stages composed (the
chain-of-thought recording touches no scores). -/
def fuse_scores (seller_item_scores : List Item) (pc : PClass) : List Item :=
  if seller_item_scores.isEmpty then []
  else
    calculate_final_scores (apply_diversity_bonus
      (apply_persona_weights (normalize_scores seller_item_scores) pc))

/-- The generated search query (`SearchQuery` TypedDict), filters
omitted (they only parameterize the external fetch). -/
structure SearchQueryR where
  original_query : String := ""
  enhanced_query : String := ""
  keywords : List String := []
  deriving DecidableEq

/-- The generated SQL query record (`SQLQuery` TypedDict); presence is
what the orchestration logic inspects. -/
structure SqlQueryR where
  query : String := ""
  deriving DecidableEq

/-- The LangGraph `RecommendationState` (`core/state.py` plus the keys
the agent nodes store), restricted to the fields the orchestration and
stage nodes read or write.  `user_input` is consumed only inside the
abstracted stage bodies and is not repeated here. -/
structure RecommendationState where
  persona_classification : Option PClass := none
  search_query : Option SearchQueryR := none
  seller_item_scores : Option (List Item) := none
  final_item_scores : Option (List Item) := none
  ranking_explanation : Option String := none
  sql_query : Option SqlQueryR := none
  current_step : String := "start"
  completed_steps : List String := []
  error_message : Option String := none
  session_id : String := ""
  timestamp : ℚ := 0
  execution_time : Option ℚ := none
  execution_start_time : Option ℚ := none
  deriving DecidableEq

/-- Python truthiness of `state.get("error_message")`: `None` and the
empty string are falsy. -/
def truthyMsg : Option String → Bool
  | none => false
  | some m => !(m == "")

/-- `Orchestrator.should_continue`. -/
def should_continue (state : RecommendationState) : String :=
  if truthyMsg state.error_message then "end"
  else if state.current_step = "query_generated" then "end"
  else if state.current_step = "completed" then "end"
  else if state.current_step = "error" then "end"
  else "continue"

/-- `Orchestrator.get_next_step`. -/
def get_next_step (current_step : String) : Option String :=
  if current_step = "start" then some "persona_classification"
  else if current_step = "persona_classified" then some "product_matching"
  else if current_step = "products_matched" then some "ranking"
  else if current_step = "products_ranked" then some "query_generation"
  else none

/-- `Orchestrator.handle_error`. -/
def handle_error (state : RecommendationState) (error : String) : RecommendationState :=
  { state with error_message := some error, current_step := "error",
               completed_steps := state.completed_steps ++ ["error_handling"] }

/-- The state mutation of `Orchestrator.log_step_progress`: record the
start time if absent (`now` abstracts `time.time()`); the rest of the
method only prints. -/
def log_step_progress (now : ℚ) (state : RecommendationState) : RecommendationState :=
  if state.execution_start_time = none then { state with execution_start_time := some now }
  else state

/-- `router_node`: early-return on `error`/`completed`, look up the
next step, transition to `error` on an unknown step, and close the
workflow when query generation has already produced `sql_query`. -/
def router_node (now : ℚ) (state : RecommendationState) : RecommendationState :=
  if state.current_step = "error" then state
  else if state.current_step = "completed" then state
  else
    match get_next_step state.current_step with
    | none => handle_error state ("알 수 없는 단계: " ++ state.current_step)
    | some next_step =>
      let st1 := log_step_progress now state
      let st2 := { st1 with current_step := next_step }
      if next_step = "query_generation" ∧ st2.sql_query.isSome then
        let st3 := { st2 with current_step := "completed",
                              completed_steps := st2.completed_steps ++ ["query_generation"] }
        match st3.execution_start_time with
        | some t0 => { st3 with execution_time := some (now - t0) }
        | none => st3
      else st2

/-- The `try/except` skeleton shared by every stage node: the body is
the `try` block (returning the updated state), and `except Exception`
converts the fault message into `error_message` (with the node's
prefix) and `current_step = "error"`; in both cases a state is
returned, never an exception. -/
def stage_wrap (msg_head : String) (body : RecommendationState → Except String RecommendationState)
    (state : RecommendationState) : RecommendationState :=
  match body state with
  | Except.ok st2 => st2
  | Except.error e =>
      { state with error_message := some (msg_head ++ e), current_step := "error" }

/-- `persona_classifier_node`, its try-block abstracted (it calls the
RAG-initialized classifier). -/
def persona_classifier_node (body : RecommendationState → Except String RecommendationState)
    (state : RecommendationState) : RecommendationState :=
  stage_wrap "페르소나 분류 중 오류: " body state

/-- `ranker_node`, its try-block abstracted (it records
chain-of-thought output). -/
def ranker_node (body : RecommendationState → Except String RecommendationState)
    (state : RecommendationState) : RecommendationState :=
  stage_wrap "상품 랭킹 중 오류: " body state

/-- `query_generator_node`, its try-block abstracted. -/
def query_generator_node (body : RecommendationState → Except String RecommendationState)
    (state : RecommendationState) : RecommendationState :=
  stage_wrap "검색 쿼리 생성 중 오류: " body state

/-- The try-block of `product_matching_node`, with the fetched sellers
and products as parameters (the database service is external):
persona classification must be present, and an empty seller or product
collection raises the "no sellers/products" `ValueError`. -/
def product_matching_body (sellers : List Seller) (products : List Product)
    (state : RecommendationState) : Except String RecommendationState :=
  match state.persona_classification with
  | none => Except.error "페르소나 분류가 완료되지 않았습니다."
  | some pc =>
    if sellers.isEmpty ∨ products.isEmpty then
      Except.error "매칭할 판매자나 상품이 없습니다."
    else
      let user_persona := prefsOfVector pc.vector
      let seller_scores := match_user_seller_persona user_persona sellers
      let seller_item_scores := match_seller_product_features seller_scores products
      Except.ok { state with seller_item_scores := some seller_item_scores,
                             current_step := "products_matched",
                             completed_steps := state.completed_steps ++ ["product_matching"] }

/-- `product_matching_node`. -/
def product_matching_node (sellers : List Seller) (products : List Product)
    (state : RecommendationState) : RecommendationState :=
  stage_wrap "상품 매칭 중 오류: " (product_matching_body sellers products) state

/-- A candidate item used in concrete evaluations: two copies of it
share a category and a seller. -/
def dup_item : Item := { seller_id := "s", category := "c" }

/-- The image of `dup_item` under `normalize_scores [dup_item]`
(all three channels constant, hence neutral). -/
def dup_item_norm : Item :=
  { dup_item with norm_persona_score := 0.5, norm_quality_score := 0.5,
                  norm_feature_score := 0.5 }

/-- A rule that no vector can satisfy (its `min_confidence` exceeds 1),
used to exercise the fallback path on concrete inputs. -/
def strict_rule : PersonaRule :=
  { min_confidence := some 2, min_bounds := [], max_bounds := [] }

/-- A rules configuration assigning `strict_rule` to every persona and
no explicit fallback. -/
def strict_rules_cfg : RulesConfig :=
  { persona_rules := fun _ => some strict_rule, fallback_persona := none }

/-- A concrete seller used in concrete evaluations. -/
def exSeller : Seller :=
  { seller_id := "s1", seller_name := "판매자1", persona_vector := fun _ => some 50,
    total_sales := 120, avg_rating := 4.8, response_time_hours := 2 }

/-- A concrete product of `exSeller` used in concrete evaluations. -/
def exProduct : Product :=
  { product_id := "p1", seller_id := "s1", title := "아이폰", price := 100,
    category := "전자기기", condition := "중고", location := "서울", description := "",
    view_count := 500, like_count := 30 }

/-! ## Helper lemmas -/

/-- A string with a nonempty head survives appending: used for the
truthiness of the error messages built by the stage nodes. -/
theorem append_ne_empty {head e : String} (h : head.length ≠ 0) : head ++ e ≠ "" := by
  intro heq
  have h2 := congrArg String.length heq
  simp [String.length_append] at h2
  exact h h2.1

/-- Behaviour of `stage_wrap` on a failing body: the error message gets
the node prefix, the step becomes `error`, and `should_continue` ends
the workflow. -/
theorem stage_wrap_error (msg_head : String) (hm : msg_head.length ≠ 0)
    (body : RecommendationState → Except String RecommendationState)
    (st : RecommendationState) (e : String) (hb : body st = Except.error e) :
    (stage_wrap msg_head body st).error_message = some (msg_head ++ e) ∧
    (stage_wrap msg_head body st).current_step = "error" ∧
    should_continue (stage_wrap msg_head body st) = "end" := by
  have hne : (msg_head ++ e) ≠ "" := append_ne_empty hm
  refine ⟨by simp [stage_wrap, hb], by simp [stage_wrap, hb], ?_⟩
  simp [stage_wrap, hb, should_continue, truthyMsg, beq_eq_false_iff_ne.mpr hne]

/-- C3: every stage node (persona classification, product matching,
ranking, query generation) traps internal faults and returns a state —
never an exception (each node is a total function into
`RecommendationState` by construction) — and on a fault the returned
state carries the prefixed `error_message` with
`current_step = "error"`, after which `should_continue` returns
`"end"`. -/
theorem C3_stage_nodes_trap_faults :
    (∀ (body : RecommendationState → Except String RecommendationState)
       (st : RecommendationState) (e : String), body st = Except.error e →
      ((persona_classifier_node body st).error_message = some ("페르소나 분류 중 오류: " ++ e) ∧
       (persona_classifier_node body st).current_step = "error" ∧
       should_continue (persona_classifier_node body st) = "end") ∧
      ((ranker_node body st).error_message = some ("상품 랭킹 중 오류: " ++ e) ∧
       (ranker_node body st).current_step = "error" ∧
       should_continue (ranker_node body st) = "end") ∧
      ((query_generator_node body st).error_message = some ("검색 쿼리 생성 중 오류: " ++ e) ∧
       (query_generator_node body st).current_step = "error" ∧
       should_continue (query_generator_node body st) = "end")) ∧
    (∀ (sellers : List Seller) (products : List Product)
       (st : RecommendationState) (e : String),
      product_matching_body sellers products st = Except.error e →
      ((product_matching_node sellers products st).error_message =
         some ("상품 매칭 중 오류: " ++ e) ∧
       (product_matching_node sellers products st).current_step = "error" ∧
       should_continue (product_matching_node sellers products st) = "end")) := by
  constructor
  · intro body st e hb
    exact ⟨stage_wrap_error _ (by decide) body st e hb,
           stage_wrap_error _ (by decide) body st e hb,
           stage_wrap_error _ (by decide) body st e hb⟩
  · intro sellers products st e hb
    exact stage_wrap_error _ (by decide) _ st e hb

/-- Witness for C3 at a concrete failing body and the initial state. -/
theorem C3_stage_nodes_trap_faults_witness :
    (persona_classifier_node (fun _ => Except.error "x") {}).current_step = "error" ∧
    should_continue (persona_classifier_node (fun _ => Except.error "x") {}) = "end" := by
  have h := (C3_stage_nodes_trap_faults.1 (fun _ => Except.error "x") {} "x" rfl).1
  exact ⟨h.2.1, h.2.2⟩

/-- C6: invoking the product-matching stage with zero sellers or zero
products (and persona classification present, so that the emptiness
check is the fault actually raised) short-circuits: the state carries
the "no sellers/products" error, `current_step = "error"`, and the
`seller_item_scores` slot is left untouched — no scores are produced. -/
theorem C6_empty_input_short_circuits :
    ∀ (sellers : List Seller) (products : List Product)
      (st : RecommendationState) (pc : PClass),
      st.persona_classification = some pc →
      sellers = [] ∨ products = [] →
      (product_matching_node sellers products st).error_message =
        some "상품 매칭 중 오류: 매칭할 판매자나 상품이 없습니다." ∧
      (product_matching_node sellers products st).current_step = "error" ∧
      (product_matching_node sellers products st).seller_item_scores =
        st.seller_item_scores := by
  intro sellers products st pc hpc hemp
  have hbody : product_matching_body sellers products st =
      Except.error "매칭할 판매자나 상품이 없습니다." := by
    have : sellers.isEmpty ∨ products.isEmpty := by
      rcases hemp with h | h
      · exact Or.inl (by simp [h])
      · exact Or.inr (by simp [h])
    simp only [product_matching_body, hpc]
    rw [if_pos this]
  have h := stage_wrap_error "상품 매칭 중 오류: " (by decide) _ st _ hbody
  refine ⟨h.1, h.2.1, ?_⟩
  simp [product_matching_node, stage_wrap, hbody]

/-- Witness for C6: empty seller list against one product. -/
theorem C6_empty_input_short_circuits_witness :
    (product_matching_node [] [exProduct]
      { persona_classification := some ⟨.HYBRID_TRADE, 1, prototype .HYBRID_TRADE⟩ }).current_step
      = "error" :=
  (C6_empty_input_short_circuits [] [exProduct]
    { persona_classification := some ⟨.HYBRID_TRADE, 1, prototype .HYBRID_TRADE⟩ }
    ⟨.HYBRID_TRADE, 1, prototype .HYBRID_TRADE⟩ rfl (Or.inl rfl)).2.1

/-- Counterexample to C2 as stated: the claim names the stage name
`persona_classification` as a recognized current step whose successor
is `product_matching`, but the router's lookup table is keyed by the
completion markers (`persona_classified`, ...), so the router sends a
state whose `current_step` is `persona_classification` to the `error`
state instead of advancing it. -/
theorem C2_claim_counterexample :
    (router_node 0 { current_step := "persona_classification" }).current_step = "error" ∧
    (router_node 0 { current_step := "persona_classification" }).current_step ≠
      "product_matching" ∧
    (router_node 0 { current_step := "persona_classification" }).error_message =
      some "알 수 없는 단계: persona_classification" := by
  refine ⟨?_, ?_, ?_⟩ <;>
    simp [router_node, get_next_step, handle_error]

/-- C2 (amended): the router's transition function recognizes exactly
the four current-step values `start`, `persona_classified`,
`products_matched` and `products_ranked`, mapping them to the next
stage along the pipeline (with `products_ranked` jumping straight to
`completed` when `sql_query` is already present); it returns states in
`error` or `completed` unchanged, and transitions every other
current-step string to `error` with a descriptive message. -/
theorem C2_router_transitions :
    ∀ (now : ℚ) (st : RecommendationState),
      (st.current_step = "start" →
        (router_node now st).current_step = "persona_classification") ∧
      (st.current_step = "persona_classified" →
        (router_node now st).current_step = "product_matching") ∧
      (st.current_step = "products_matched" →
        (router_node now st).current_step = "ranking") ∧
      (st.current_step = "products_ranked" →
        (router_node now st).current_step =
          (if st.sql_query.isSome then "completed" else "query_generation")) ∧
      (st.current_step = "error" → router_node now st = st) ∧
      (st.current_step = "completed" → router_node now st = st) ∧
      (st.current_step ∉ (["start", "persona_classified", "products_matched",
          "products_ranked", "error", "completed"] : List String) →
        (router_node now st).current_step = "error" ∧
        (router_node now st).error_message =
          some ("알 수 없는 단계: " ++ st.current_step)) := by
  intro now st
  refine ⟨?_, ?_, ?_, ?_, ?_, ?_, ?_⟩
  · intro h
    simp [router_node, get_next_step, h, log_step_progress]
  · intro h
    simp [router_node, get_next_step, h, log_step_progress]
  · intro h
    simp [router_node, get_next_step, h, log_step_progress]
  · intro h
    rcases hq : st.sql_query with _ | q <;>
      rcases hes : st.execution_start_time with _ | t0 <;>
        simp [router_node, get_next_step, h, log_step_progress, hq, hes]
  · intro h
    simp [router_node, h]
  · intro h
    simp [router_node, h]
  · intro h
    simp only [List.mem_cons, List.not_mem_nil, or_false, not_or] at h
    obtain ⟨h1, h2, h3, h4, h5, h6⟩ := h
    simp [router_node, get_next_step, h1, h2, h3, h4, h5, h6, handle_error]

/-- Witness for C2 at a concrete unknown step. -/
theorem C2_router_transitions_witness :
    (router_node 0 { current_step := "zzz" }).current_step = "error" ∧
    (router_node 0 { current_step := "zzz" }).error_message = some "알 수 없는 단계: zzz" :=
  (C2_router_transitions 0 { current_step := "zzz" }).2.2.2.2.2.2 (by decide)

/-- Folding `max` over a constant list leaves the seed unchanged. -/
theorem foldl_max_const (x : ℚ) (l : List ℚ) (h : ∀ y ∈ l, y = x) :
    l.foldl max x = x := by
  induction l with
  | nil => rfl
  | cons a t ih =>
    have ha : a = x := h a (by simp)
    have ht : ∀ y ∈ t, y = x := fun y hy => h y (by simp [hy])
    simp [List.foldl_cons, ha, max_self, ih ht]

/-- Folding `min` over a constant list leaves the seed unchanged. -/
theorem foldl_min_const (x : ℚ) (l : List ℚ) (h : ∀ y ∈ l, y = x) :
    l.foldl min x = x := by
  induction l with
  | nil => rfl
  | cons a t ih =>
    have ha : a = x := h a (by simp)
    have ht : ∀ y ∈ t, y = x := fun y hy => h y (by simp [hy])
    simp [List.foldl_cons, ha, min_self, ih ht]

/-- On a constant list, Python's `max` and `min` agree. -/
theorem listMax_eq_listMin_of_const {l : List ℚ}
    (h : ∀ x ∈ l, ∀ y ∈ l, x = y) : listMax l = listMin l := by
  cases l with
  | nil => rfl
  | cons a t =>
    have ht : ∀ y ∈ t, y = a := fun y hy => h y (by simp [hy]) a (by simp)
    simp [listMax, listMin, foldl_max_const a t ht, foldl_min_const a t ht]

/-- A constant channel is normalized to the neutral constant list. -/
theorem normalize_list_const {l : List ℚ} (h : listMax l = listMin l) :
    normalize_list l = List.replicate l.length 0.5 := by
  simp [normalize_list, h]

/-- The normalized channel values attached by `attach_norms` come from
the respective channel lists. -/
theorem attach_norms_mem {e : Item} : ∀ {items : List Item} {as_ bs cs : List ℚ},
    e ∈ attach_norms items as_ bs cs →
    e.norm_persona_score ∈ as_ ∧ e.norm_quality_score ∈ bs ∧ e.norm_feature_score ∈ cs := by
  intro items
  induction items with
  | nil => intro as_ bs cs h; simp [attach_norms] at h
  | cons it its ih =>
    intro as_ bs cs h
    match as_, bs, cs with
    | [], _, _ => simp [attach_norms] at h
    | _ :: _, [], _ => simp [attach_norms] at h
    | _ :: _, _ :: _, [] => simp [attach_norms] at h
    | a :: as2, b :: bs2, c :: cs2 =>
      simp only [attach_norms, List.mem_cons] at h
      rcases h with rfl | h
      · simp
      · have h3 := ih h
        exact ⟨List.mem_cons_of_mem _ h3.1, List.mem_cons_of_mem _ h3.2.1,
               List.mem_cons_of_mem _ h3.2.2⟩

/-- C7: on a non-empty candidate list, a score channel whose values are
all equal is normalized to the neutral `0.5` for every item, and the
Min-Max denominator is nonzero whenever the division branch is taken
(so no division by zero occurs). -/
theorem C7_constant_channel_neutral :
    (∀ (items : List Item), items ≠ [] →
      ((∀ x ∈ items, ∀ y ∈ items, x.seller_persona_score = y.seller_persona_score) →
        ∀ e ∈ normalize_scores items, e.norm_persona_score = 0.5) ∧
      ((∀ x ∈ items, ∀ y ∈ items, x.seller_quality_score = y.seller_quality_score) →
        ∀ e ∈ normalize_scores items, e.norm_quality_score = 0.5) ∧
      ((∀ x ∈ items, ∀ y ∈ items, x.product_feature_score = y.product_feature_score) →
        ∀ e ∈ normalize_scores items, e.norm_feature_score = 0.5)) ∧
    (∀ scores : List ℚ, listMax scores ≠ listMin scores →
      listMax scores - listMin scores ≠ 0) := by
  constructor
  · intro items hne
    have hEmpty : items.isEmpty = false := by simp [hne]
    refine ⟨?_, ?_, ?_⟩
    · intro hconst e he
      simp only [normalize_scores, hEmpty, Bool.false_eq_true, if_false] at he
      have hch : ∀ x ∈ items.map (fun i => i.seller_persona_score),
          ∀ y ∈ items.map (fun i => i.seller_persona_score), x = y := by
        intro x hx y hy
        obtain ⟨ix, hix, rfl⟩ := List.mem_map.mp hx
        obtain ⟨iy, hiy, rfl⟩ := List.mem_map.mp hy
        exact hconst ix hix iy hiy
      have hm := (attach_norms_mem he).1
      rw [normalize_list_const (listMax_eq_listMin_of_const hch)] at hm
      exact List.eq_of_mem_replicate hm
    · intro hconst e he
      simp only [normalize_scores, hEmpty, Bool.false_eq_true, if_false] at he
      have hch : ∀ x ∈ items.map (fun i => i.seller_quality_score),
          ∀ y ∈ items.map (fun i => i.seller_quality_score), x = y := by
        intro x hx y hy
        obtain ⟨ix, hix, rfl⟩ := List.mem_map.mp hx
        obtain ⟨iy, hiy, rfl⟩ := List.mem_map.mp hy
        exact hconst ix hix iy hiy
      have hm := (attach_norms_mem he).2.1
      rw [normalize_list_const (listMax_eq_listMin_of_const hch)] at hm
      exact List.eq_of_mem_replicate hm
    · intro hconst e he
      simp only [normalize_scores, hEmpty, Bool.false_eq_true, if_false] at he
      have hch : ∀ x ∈ items.map (fun i => i.product_feature_score),
          ∀ y ∈ items.map (fun i => i.product_feature_score), x = y := by
        intro x hx y hy
        obtain ⟨ix, hix, rfl⟩ := List.mem_map.mp hx
        obtain ⟨iy, hiy, rfl⟩ := List.mem_map.mp hy
        exact hconst ix hix iy hiy
      have hm := (attach_norms_mem he).2.2
      rw [normalize_list_const (listMax_eq_listMin_of_const hch)] at hm
      exact List.eq_of_mem_replicate hm
  · intro scores h
    exact sub_ne_zero.mpr h

/-- Witness for C7 on a singleton candidate list (every channel
constant). -/
theorem C7_constant_channel_neutral_witness : dup_item_norm.norm_persona_score = 0.5 := by
  have h := ((C7_constant_channel_neutral.1 [dup_item] (by simp)).1 (by simp))
  refine h dup_item_norm ?_
  simp [normalize_scores, normalize_list, listMax, listMin, attach_norms, dup_item,
    dup_item_norm]

/-- C1 evaluated on a concrete two-item candidate list: the diversity
bonus pool is `0.05`, the item ranked first (index 0) receives `1/20`
while the lower-ranked item (index 1) receives only `1/40`, so the
lower-ranked item does NOT receive a bonus at least as large as the
higher-ranked one — the code decays the bonus with the rank index,
contradicting the claimed rank-decay invariant (and the source's own
comment that lower-ranked items get a larger bonus). -/
theorem C1_diversity_bonus_eval :
    ((apply_diversity_bonus [dup_item, dup_item]).map fun e => e.diversity_bonus) =
      [1/20, 1/40] ∧
    ¬ ((1 : ℚ)/40 ≥ 1/20) := by
  constructor
  · have hc : (([dup_item, dup_item].map fun i => i.category)).dedup = ["c"] := by decide
    have hs : (([dup_item, dup_item].map fun i => i.seller_id)).dedup = ["s"] := by decide
    simp [apply_diversity_bonus, diversity_assign, hc, hs, dup_item]
    norm_num
  · norm_num

/-- The fold of `_calculate_persona_score` skips every axis absent from
one of the two vectors. -/
theorem persona_fold_skip {u s : Axis → Option ℚ} {ws : List (Axis × ℚ)}
    (h : ∀ kw ∈ ws, u kw.1 = none ∨ s kw.1 = none) (acc : ℚ × ℚ) :
    ws.foldl (persona_score_step u s) acc = acc := by
  induction ws generalizing acc with
  | nil => rfl
  | cons kw t ih =>
    have hstep : persona_score_step u s acc kw = acc := by
      rcases h kw (by simp) with h1 | h1 <;>
        · cases hua : u kw.1 <;> cases hsa : s kw.1 <;>
            simp_all [persona_score_step]
    rw [List.foldl_cons, hstep]
    exact ih (fun x hx => h x (List.mem_cons_of_mem _ hx)) acc

/-- Invariant of the `_calculate_persona_score` fold: with axis values
in `[0, 100]` and nonnegative weights, the accumulated score stays
between `0` and the accumulated weight. -/
theorem persona_fold_bounds (u s : Axis → Option ℚ)
    (hu : ∀ a x, u a = some x → 0 ≤ x ∧ x ≤ 100)
    (hs : ∀ a x, s a = some x → 0 ≤ x ∧ x ≤ 100) :
    ∀ (ws : List (Axis × ℚ)) (acc : ℚ × ℚ), (∀ kw ∈ ws, 0 ≤ kw.2) →
      0 ≤ acc.1 → acc.1 ≤ acc.2 →
      0 ≤ (ws.foldl (persona_score_step u s) acc).1 ∧
      (ws.foldl (persona_score_step u s) acc).1 ≤
        (ws.foldl (persona_score_step u s) acc).2 := by
  intro ws
  induction ws with
  | nil => intro acc _ h0 h1; exact ⟨h0, h1⟩
  | cons kw t ih =>
    intro acc hw h0 h1
    have hstep : 0 ≤ (persona_score_step u s acc kw).1 ∧
        (persona_score_step u s acc kw).1 ≤ (persona_score_step u s acc kw).2 := by
      cases hua : u kw.1 with
      | none => simp [persona_score_step, hua]; exact ⟨h0, h1⟩
      | some uv =>
        cases hsa : s kw.1 with
        | none => simp [persona_score_step, hua, hsa]; exact ⟨h0, h1⟩
        | some sv =>
          have hbu := hu _ _ hua
          have hbs := hs _ _ hsa
          have habs : |uv - sv| ≤ 100 :=
            abs_le.mpr ⟨by linarith [hbu.1, hbu.2, hbs.1, hbs.2],
                        by linarith [hbu.1, hbu.2, hbs.1, hbs.2]⟩
          have habs0 : (0:ℚ) ≤ |uv - sv| := abs_nonneg _
          have hw0 : 0 ≤ kw.2 := hw kw (by simp)
          have hdiv1 : |uv - sv| / 100 ≤ 1 := (div_le_one (by norm_num)).mpr habs
          have hdiv0 : (0:ℚ) ≤ |uv - sv| / 100 := div_nonneg habs0 (by norm_num)
          have hterm0 : 0 ≤ kw.2 * (1 - |uv - sv| / 100) :=
            mul_nonneg hw0 (by linarith)
          have hterm1 : kw.2 * (1 - |uv - sv| / 100) ≤ kw.2 := by nlinarith
          simp only [persona_score_step, hua, hsa]
          refine ⟨?_, ?_⟩
          · change 0 ≤ acc.1 + kw.2 * (1 - |uv - sv| / 100)
            linarith
          · change acc.1 + kw.2 * (1 - |uv - sv| / 100) ≤ acc.2 + kw.2
            linarith
    rw [List.foldl_cons]
    exact ih _ (fun x hx => hw x (List.mem_cons_of_mem _ hx)) hstep.1 hstep.2

/-- The fixed `MATCHING_WEIGHTS` are nonnegative. -/
theorem matching_weights_nonneg : ∀ kw ∈ matching_weights, 0 ≤ kw.2 := by
  intro kw h
  fin_cases h <;> norm_num [matching_weights]

/-- C10: the per-axis weighted persona-affinity score is total — when
no axis is present in both vectors it returns `0.0` instead of
dividing by zero, and otherwise (for axis values in `[0, 100]`) it
returns a value in `[0, 1]`. -/
theorem C10_persona_score_total :
    ∀ (user_vector seller_vector : Axis → Option ℚ),
      ((∀ kw ∈ matching_weights,
          user_vector kw.1 = none ∨ seller_vector kw.1 = none) →
        calculate_persona_score user_vector seller_vector = 0) ∧
      ((∀ a x, user_vector a = some x → 0 ≤ x ∧ x ≤ 100) →
       (∀ a x, seller_vector a = some x → 0 ≤ x ∧ x ≤ 100) →
        0 ≤ calculate_persona_score user_vector seller_vector ∧
        calculate_persona_score user_vector seller_vector ≤ 1) := by
  intro u s
  constructor
  · intro h
    have hz := persona_fold_skip h ((0, 0) : ℚ × ℚ)
    simp only [calculate_persona_score]
    rw [hz]
    norm_num
  · intro hu hs
    have hb := persona_fold_bounds u s hu hs matching_weights ((0, 0) : ℚ × ℚ)
      matching_weights_nonneg le_rfl le_rfl
    by_cases hr : 0 < (matching_weights.foldl (persona_score_step u s) ((0, 0) : ℚ × ℚ)).2
    · constructor
      · simp only [calculate_persona_score]
        rw [if_pos hr]
        exact div_nonneg hb.1 (le_of_lt hr)
      · simp only [calculate_persona_score]
        rw [if_pos hr]
        exact (div_le_one hr).mpr hb.2
    · simp only [calculate_persona_score]
      rw [if_neg hr]
      norm_num

/-- Witness for C10 on a pair of concrete full vectors. -/
theorem C10_persona_score_total_witness :
    0 ≤ calculate_persona_score (fun _ => some (50:ℚ)) (fun _ => some 50) ∧
    calculate_persona_score (fun _ => some (50:ℚ)) (fun _ => some 50) ≤ 1 :=
  (C10_persona_score_total (fun _ => some 50) (fun _ => some 50)).2
    (by intro a x hx; simp only [Option.some.injEq] at hx; subst hx; norm_num)
    (by intro a x hx; simp only [Option.some.injEq] at hx; subst hx; norm_num)

/-- C8: the two-stage matcher computes the documented seller quality
score, the `0.7/0.3` final seller score, and the `0.6/0.4` item score,
and returns the item list sorted descending by item score. -/
theorem C8_two_stage_scoring :
    ∀ (user_persona : Axis → Option ℚ) (sellers : List Seller)
      (seller_scores : List SellerScore) (products : List Product),
      (∀ e ∈ match_user_seller_persona user_persona sellers, ∃ sel ∈ sellers,
        e.persona_score = calculate_persona_score user_persona sel.persona_vector ∧
        e.quality_score = 0.5 * min (sel.avg_rating / 5) 1 +
          0.3 * min (sel.total_sales / 1000) 1 +
          0.2 * max 0 (1 - sel.response_time_hours / 24) ∧
        e.final_score = 0.7 * e.persona_score + 0.3 * e.quality_score) ∧
      (∀ e ∈ match_seller_product_features seller_scores products,
        ∃ s ∈ seller_scores, ∃ p ∈ products,
          p.seller_id = s.seller_id ∧
          e.seller_persona_score = s.persona_score ∧
          e.seller_quality_score = s.quality_score ∧
          e.product_feature_score = 0.4 * min (p.view_count / 1000) 1 +
            0.3 * min (p.like_count / 100) 1 + 0.3 * condition_score p.condition ∧
          e.final_item_score = 0.6 * s.final_score + 0.4 * e.product_feature_score) ∧
      List.Pairwise (fun a b => b.final_item_score ≤ a.final_item_score)
        (match_seller_product_features seller_scores products) := by
  intro u sellers ss products
  refine ⟨?_, ?_, ?_⟩
  · intro e he
    simp only [match_user_seller_persona, List.mem_mergeSort, List.mem_map] at he
    obtain ⟨sel, hsel, rfl⟩ := he
    exact ⟨sel, hsel, rfl, rfl, rfl⟩
  · intro e he
    simp only [match_seller_product_features, List.mem_mergeSort, List.mem_flatten,
      List.mem_map] at he
    obtain ⟨l, ⟨s, hs, rfl⟩, he⟩ := he
    obtain ⟨p, hpf, rfl⟩ := List.mem_map.mp he
    have hp := List.mem_filter.mp hpf
    have hid : p.seller_id = s.seller_id := by simpa using hp.2
    exact ⟨s, hs, p, hp.1, hid, rfl, rfl, rfl, rfl⟩
  · have h := @List.sorted_mergeSort Item
      (fun a b => decide (b.final_item_score ≤ a.final_item_score))
      (fun a b c hab hbc => decide_eq_true
        (le_trans (of_decide_eq_true hbc) (of_decide_eq_true hab)))
      (fun a b => by
        rcases le_total b.final_item_score a.final_item_score with h | h <;>
          simp [h])
      ((ss.map fun s =>
        (products.filter fun p => p.seller_id == s.seller_id).map (item_entry s)).flatten)
    exact h.imp fun hab => of_decide_eq_true hab

/-- Squared distances are nonnegative. -/
theorem dsq_nonneg (v w : PersonaVector) : 0 ≤ dsq v w := by
  unfold dsq
  positivity

/-- The source compares square roots of the squared distances; this is
equivalent to comparing the squared distances themselves, which is what
the executable `nearestStep` does. -/
theorem calculate_l2_lt_iff (v w w' : PersonaVector) :
    calculate_l2_distance v w < calculate_l2_distance v w' ↔ dsq v w < dsq v w' := by
  unfold calculate_l2_distance
  constructor
  · intro h
    by_contra hc
    push_neg at hc
    have h2 : Real.sqrt (dsq v w' : ℝ) ≤ Real.sqrt (dsq v w : ℝ) :=
      Real.sqrt_le_sqrt (by exact_mod_cast hc)
    linarith
  · intro h
    have h0 : (0:ℝ) ≤ (dsq v w : ℝ) := by exact_mod_cast dsq_nonneg v w
    exact Real.sqrt_lt_sqrt h0 (by exact_mod_cast h)

/-- The executable check `confGeB` is exactly the source's comparison
`distance_confidence >= min_confidence`. -/
theorem confGeB_iff (d2 mc : ℚ) (h : 0 ≤ d2) :
    confGeB d2 mc = true ↔ (mc : ℝ) ≤ distConfidence d2 := by
  have hS : (0:ℝ) < Real.sqrt (5 * 100 ^ 2) := Real.sqrt_pos.mpr (by norm_num)
  have hd0 : (0:ℝ) ≤ (d2:ℝ) := by exact_mod_cast h
  unfold confGeB distConfidence
  by_cases hmc : 1 < mc
  · rw [if_pos hmc]
    simp only [Bool.false_eq_true, false_iff, not_le]
    have hsq : 0 ≤ Real.sqrt (d2:ℝ) / Real.sqrt (5 * 100 ^ 2) :=
      div_nonneg (Real.sqrt_nonneg _) (le_of_lt hS)
    have hmc' : (1:ℝ) < (mc:ℝ) := by exact_mod_cast hmc
    linarith
  · push_neg at hmc
    have hmc' : (mc:ℝ) ≤ 1 := by exact_mod_cast hmc
    rw [if_neg (not_lt.mpr hmc), decide_eq_true_eq]
    have hy : (0:ℝ) ≤ (1 - (mc:ℝ)) * Real.sqrt (5 * 100 ^ 2) :=
      mul_nonneg (by linarith) (le_of_lt hS)
    have hsq2 : ((1 - (mc:ℝ)) * Real.sqrt (5 * 100 ^ 2)) ^ 2 =
        (1 - (mc:ℝ)) ^ 2 * (5 * 100 ^ 2) := by
      rw [mul_pow, Real.sq_sqrt (by norm_num)]
    constructor
    · intro hle
      have hle' : (d2:ℝ) ≤ ((1 - (mc:ℝ)) * Real.sqrt (5 * 100 ^ 2)) ^ 2 := by
        rw [hsq2]
        exact_mod_cast hle
      have hroot : Real.sqrt (d2:ℝ) ≤ (1 - (mc:ℝ)) * Real.sqrt (5 * 100 ^ 2) :=
        (Real.sqrt_le_left hy).mpr hle'
      have hdivle : Real.sqrt (d2:ℝ) / Real.sqrt (5 * 100 ^ 2) ≤ 1 - (mc:ℝ) :=
        (div_le_iff₀ hS).mpr hroot
      linarith
    · intro hle
      have hdivle : Real.sqrt (d2:ℝ) / Real.sqrt (5 * 100 ^ 2) ≤ 1 - (mc:ℝ) := by
        linarith
      have hroot : Real.sqrt (d2:ℝ) ≤ (1 - (mc:ℝ)) * Real.sqrt (5 * 100 ^ 2) :=
        (div_le_iff₀ hS).mp hdivle
      have hle' : (d2:ℝ) ≤ ((1 - (mc:ℝ)) * Real.sqrt (5 * 100 ^ 2)) ^ 2 :=
        (Real.sqrt_le_left hy).mp hroot
      rw [hsq2] at hle'
      exact_mod_cast hle'

/-- Confidence at distance zero is exactly 1. -/
theorem distConfidence_zero : distConfidence 0 = 1 := by
  simp [distConfidence]

/-- Confidence is monotone non-increasing in the squared distance
(hence in the L2 distance). -/
theorem distConfidence_mono (a b : ℚ) (ha : 0 ≤ a) (hab : a ≤ b) :
    distConfidence b ≤ distConfidence a := by
  unfold distConfidence
  have hS : (0:ℝ) < Real.sqrt (5 * 100 ^ 2) := Real.sqrt_pos.mpr (by norm_num)
  have hsq : Real.sqrt (a:ℝ) ≤ Real.sqrt (b:ℝ) := Real.sqrt_le_sqrt (by exact_mod_cast hab)
  have hdiv : Real.sqrt (a:ℝ) / Real.sqrt (5 * 100 ^ 2) ≤
      Real.sqrt (b:ℝ) / Real.sqrt (5 * 100 ^ 2) := by
    gcongr
  linarith

/-- Confidence never exceeds 1. -/
theorem distConfidence_le_one (d2 : ℚ) : distConfidence d2 ≤ 1 := by
  unfold distConfidence
  have h0 : 0 ≤ Real.sqrt (d2:ℝ) / Real.sqrt (5 * 100 ^ 2) :=
    div_nonneg (Real.sqrt_nonneg _) (Real.sqrt_nonneg _)
  linarith

/-- Confidence is nonnegative for squared distances up to the maximal
`5 * 100 ** 2`. -/
theorem distConfidence_nonneg (d2 : ℚ) (h : 0 ≤ d2) (h2 : d2 ≤ 5 * 100 ^ 2) :
    0 ≤ distConfidence d2 := by
  unfold distConfidence
  have hS : (0:ℝ) < Real.sqrt (5 * 100 ^ 2) := Real.sqrt_pos.mpr (by norm_num)
  have hsq : Real.sqrt (d2:ℝ) ≤ Real.sqrt (5 * 100 ^ 2) :=
    Real.sqrt_le_sqrt (by exact_mod_cast h2)
  have hdiv : Real.sqrt (d2:ℝ) / Real.sqrt (5 * 100 ^ 2) ≤ 1 :=
    (div_le_one hS).mpr hsq
  linarith

/-- All prototype coordinates lie in `[0, 100]`. -/
theorem prototype_axis_bounds (P : PersonaType) (a : Axis) :
    0 ≤ axisVal (prototype P) a ∧ axisVal (prototype P) a ≤ 100 := by
  cases P <;> cases a <;> norm_num [prototype, axisVal]

/-- Normalized slider vectors have every axis in `[0, 100]` (the
clamping property). -/
theorem normalize_in_range (prefs : Axis → Option ℚ) (a : Axis) :
    0 ≤ axisVal (normalize_slider_inputs prefs) a ∧
    axisVal (normalize_slider_inputs prefs) a ≤ 100 := by
  cases a <;>
    exact ⟨le_max_left _ _, max_le (by norm_num) (min_le_left _ _)⟩

/-- Squared distance between two vectors with coordinates in `[0, 100]`
is at most `5 * 100 ** 2`. -/
theorem dsq_le_max (v w : PersonaVector)
    (hv : ∀ a, 0 ≤ axisVal v a ∧ axisVal v a ≤ 100)
    (hw : ∀ a, 0 ≤ axisVal w a ∧ axisVal w a ≤ 100) :
    dsq v w ≤ 5 * 100 ^ 2 := by
  have h1v := hv .trust_safety
  have h2v := hv .quality_condition
  have h3v := hv .remote_transaction
  have h4v := hv .activity_responsiveness
  have h5v := hv .price_flexibility
  have h1w := hw .trust_safety
  have h2w := hw .quality_condition
  have h3w := hw .remote_transaction
  have h4w := hw .activity_responsiveness
  have h5w := hw .price_flexibility
  simp only [axisVal] at h1v h2v h3v h4v h5v h1w h2w h3w h4w h5w
  have h1 : (v.trust_safety - w.trust_safety) ^ 2 ≤ 100 ^ 2 :=
    sq_le_sq' (by linarith [h1v.1, h1w.2]) (by linarith [h1v.2, h1w.1])
  have h2 : (v.quality_condition - w.quality_condition) ^ 2 ≤ 100 ^ 2 :=
    sq_le_sq' (by linarith [h2v.1, h2w.2]) (by linarith [h2v.2, h2w.1])
  have h3 : (v.remote_transaction - w.remote_transaction) ^ 2 ≤ 100 ^ 2 :=
    sq_le_sq' (by linarith [h3v.1, h3w.2]) (by linarith [h3v.2, h3w.1])
  have h4 : (v.activity_responsiveness - w.activity_responsiveness) ^ 2 ≤ 100 ^ 2 :=
    sq_le_sq' (by linarith [h4v.1, h4w.2]) (by linarith [h4v.2, h4w.1])
  have h5 : (v.price_flexibility - w.price_flexibility) ^ 2 ≤ 100 ^ 2 :=
    sq_le_sq' (by linarith [h5v.1, h5w.2]) (by linarith [h5v.2, h5w.1])
  unfold dsq
  linarith

/-- Invariant of the nearest-prototype fold: whenever the tracked
minimum is a real distance, it is the squared distance to the tracked
persona's prototype. -/
theorem nearest_fold_inv (v : PersonaVector) :
    ∀ (ps : List PersonaType) (b : PersonaType × Option ℚ),
      (∀ m, b.2 = some m → m = dsq v (prototype b.1)) →
      ∀ m, (ps.foldl (nearestStep v) b).2 = some m →
        m = dsq v (prototype (ps.foldl (nearestStep v) b).1) := by
  intro ps
  induction ps with
  | nil => intro b hb; exact hb
  | cons p t ih =>
    intro b hb
    rw [List.foldl_cons]
    apply ih
    intro m hm
    rcases hb2 : b.2 with _ | m0
    · simp only [nearestStep, hb2, Option.some.injEq] at hm ⊢
      exact hm.symm
    · simp only [nearestStep, hb2] at hm ⊢
      by_cases hlt : dsq v (prototype p) < m0
      · rw [if_pos hlt] at hm ⊢
        simp only [Option.some.injEq] at hm
        exact hm.symm
      · rw [if_neg hlt] at hm ⊢
        exact hb m hm

/-- Bounds propagate through a `max` fold. -/
theorem foldl_max_bounds (lo hi : ℚ) :
    ∀ (l : List ℚ) (x : ℚ), lo ≤ x → x ≤ hi → (∀ y ∈ l, lo ≤ y ∧ y ≤ hi) →
      lo ≤ l.foldl max x ∧ l.foldl max x ≤ hi := by
  intro l
  induction l with
  | nil => intro x h0 h1 _; exact ⟨h0, h1⟩
  | cons a t ih =>
    intro x h0 h1 hl
    rw [List.foldl_cons]
    exact ih (max x a) (le_trans h0 (le_max_left _ _)) (max_le h1 (hl a (by simp)).2)
      (fun y hy => hl y (by simp [hy]))

/-- Python's `max` of a nonempty list of values in `[0, 1]` is in
`[0, 1]`. -/
theorem maxList_bounds {l : List ℚ} (hne : l ≠ []) (h : ∀ y ∈ l, 0 ≤ y ∧ y ≤ 1) :
    0 ≤ maxList l ∧ maxList l ≤ 1 := by
  cases l with
  | nil => exact absurd rfl hne
  | cons a t =>
    exact foldl_max_bounds 0 1 t a (h a (by simp)).1 (h a (by simp)).2
      (fun y hy => h y (by simp [hy]))

/-- The squared distance tracked by `nearestProto` is between `0` and
the maximal `5 * 100 ** 2` whenever the input vector is clamped. -/
theorem nearest_d2_bounds (v : PersonaVector)
    (hv : ∀ a, 0 ≤ axisVal v a ∧ axisVal v a ≤ 100) :
    0 ≤ (nearestProto v).2.getD 0 ∧ (nearestProto v).2.getD 0 ≤ 5 * 100 ^ 2 := by
  rcases hb : (nearestProto v).2 with _ | m
  · simp
  · have hm := nearest_fold_inv v personaList (PersonaType.HYBRID_TRADE, none)
      (by intro m hm; simp at hm) m hb
    simp only [hb, Option.getD_some]
    rw [hm]
    exact ⟨dsq_nonneg _ _, dsq_le_max v _ hv (fun a => prototype_axis_bounds _ a)⟩

/-- The confidence returned by `apply_rules_threshold` lies in `[0, 1]`
for clamped input vectors and candidate similarities in `[0, 1]`. -/
theorem apply_rules_conf_bounds (cfg : RulesConfig) (v : PersonaVector) (cands : List ℚ)
    (hv : ∀ a, 0 ≤ axisVal v a ∧ axisVal v a ≤ 100)
    (hc : ∀ s_ ∈ cands, 0 ≤ s_ ∧ s_ ≤ 1) :
    0 ≤ (apply_rules_threshold cfg v cands).2.1 ∧
    (apply_rules_threshold cfg v cands).2.1 ≤ 1 := by
  have hd2 := nearest_d2_bounds v hv
  have hdc0 := distConfidence_nonneg _ hd2.1 hd2.2
  have hdc1 := distConfidence_le_one ((nearestProto v).2.getD 0)
  simp only [apply_rules_threshold]
  rcases hcand : cands with _ | ⟨c0, crest⟩
  · simp only [List.isEmpty_nil, if_true]
    rcases hr : cfg.persona_rules (nearestProto v).1 with _ | rule
    · exact ⟨hdc0, hdc1⟩
    · by_cases hpass : (conditions_met rule v &&
        confGeB ((nearestProto v).2.getD 0) (rule.min_confidence.getD 0.5)) = true
      · simp only [hpass, if_true]
        exact ⟨hdc0, hdc1⟩
      · simp only [Bool.not_eq_true] at hpass
        simp only [hpass, Bool.false_eq_true, if_false]
        norm_num
  · have hnil : (c0 :: crest) ≠ [] := by simp
    have hM := maxList_bounds hnil (hcand ▸ hc)
    have hM0 : (0:ℝ) ≤ (maxList (c0 :: crest) : ℝ) := by exact_mod_cast hM.1
    have hM1 : ((maxList (c0 :: crest) : ℚ) : ℝ) ≤ 1 := by exact_mod_cast hM.2
    simp only [List.isEmpty_cons, Bool.false_eq_true, if_false]
    rcases hr : cfg.persona_rules (nearestProto v).1 with _ | rule
    · constructor
      · have : (0:ℝ) ≤ 0.7 * distConfidence ((nearestProto v).2.getD 0) := by
          have := hdc0
          norm_num
          linarith
        norm_num
        nlinarith [hM0, hdc0]
      · norm_num
        nlinarith [hM1, hdc1, hM0, hdc0]
    · by_cases hpass : (conditions_met rule v &&
        confGeB ((nearestProto v).2.getD 0) (rule.min_confidence.getD 0.5)) = true
      · simp only [hpass, if_true]
        constructor
        · norm_num
          nlinarith [hM0, hdc0]
        · norm_num
          nlinarith [hM1, hdc1, hM0, hdc0]
      · simp only [Bool.not_eq_true] at hpass
        simp only [hpass, Bool.false_eq_true, if_false]
        constructor
        · norm_num
          nlinarith [hM0]
        · norm_num
          nlinarith [hM1, hM0]

/-- C5: the distance-to-confidence mapping is
`1 - distance / sqrt(5 * 100 ** 2)`, it is monotone non-increasing in
the (squared) L2 distance, and for every input the classifier's
returned confidence — including after the `0.7/0.3` retrieval blending
with candidate similarities in `[0, 1]` — lies in `[0, 1]`. -/
theorem C5_confidence_properties :
    (∀ d2 : ℚ, distConfidence d2 = 1 - Real.sqrt (d2 : ℝ) / Real.sqrt (5 * 100 ^ 2)) ∧
    (∀ a b : ℚ, 0 ≤ a → a ≤ b → distConfidence b ≤ distConfidence a) ∧
    (∀ (prefs : Axis → Option ℚ) (cfg : RulesConfig) (cands : List ℚ),
      (∀ s_ ∈ cands, 0 ≤ s_ ∧ s_ ≤ 1) →
      0 ≤ (classify_persona prefs cfg cands).confidence ∧
      (classify_persona prefs cfg cands).confidence ≤ 1) := by
  refine ⟨fun d2 => rfl, distConfidence_mono, ?_⟩
  intro prefs cfg cands hc
  exact apply_rules_conf_bounds cfg (normalize_slider_inputs prefs) cands
    (normalize_in_range prefs) hc

/-- Witness for C5: monotonicity at `0 ≤ 50000` and the confidence
bound at a concrete classification with one retrieval candidate. -/
theorem C5_confidence_properties_witness :
    distConfidence 50000 ≤ distConfidence 0 ∧
    (0 ≤ (classify_persona (prefsOfVector (prototype .HYBRID_TRADE)) emptyRules
        [1/2]).confidence ∧
      (classify_persona (prefsOfVector (prototype .HYBRID_TRADE)) emptyRules
        [1/2]).confidence ≤ 1) :=
  ⟨C5_confidence_properties.2.1 0 50000 le_rfl (by norm_num),
   C5_confidence_properties.2.2 _ emptyRules [1/2]
     (by intro s_ hs_; simp only [List.mem_singleton] at hs_; subst hs_; norm_num)⟩

/-- Classifying a prototype's own vector selects that persona with
squared distance zero (the source's strict `<` makes the unique zero
distance win regardless of iteration order). -/
theorem nearest_self (P : PersonaType) : nearestProto (prototype P) = (P, some 0) := by
  cases P <;>
    norm_num [nearestProto, personaList, nearestStep, dsq, prototype,
      List.foldl_cons, List.foldl_nil]

/-- Prototype coordinates are already clamped, so normalization is the
identity on them. -/
theorem normalize_proto (P : PersonaType) :
    normalize_slider_inputs (prefsOfVector (prototype P)) = prototype P := by
  cases P <;>
    norm_num [normalize_slider_inputs, prefsOfVector, prototype, axisVal]

/-- C4: for every persona `P`, classifying user preferences equal to
`P`'s exact prototype vector yields `persona_type = P` with confidence
exactly 1, provided no rule entry fails `P` at that vector and no
retrieval candidates are returned. -/
theorem C4_prototype_classification :
    ∀ (P : PersonaType) (cfg : RulesConfig),
      (∀ rule, cfg.persona_rules P = some rule →
        conditions_met rule (prototype P) = true ∧
        confGeB 0 (rule.min_confidence.getD 0.5) = true) →
      (classify_persona (prefsOfVector (prototype P)) cfg []).persona_type = P ∧
      (classify_persona (prefsOfVector (prototype P)) cfg []).confidence = 1 := by
  intro P cfg hrule
  have hv := normalize_proto P
  have hn := nearest_self P
  simp only [classify_persona, hv, apply_rules_threshold, hn, Option.getD_some]
  rcases hr : cfg.persona_rules P with _ | rule
  · simp [hr, distConfidence_zero]
  · have hpass := hrule rule hr
    simp [hr, hpass.1, hpass.2, distConfidence_zero]

/-- Witness for C4: the `TRUST_SAFETY_PRO` end-to-end scenario with no
rules configured. -/
theorem C4_prototype_classification_witness :
    (classify_persona (prefsOfVector (prototype .TRUST_SAFETY_PRO)) emptyRules
      []).persona_type = PersonaType.TRUST_SAFETY_PRO ∧
    (classify_persona (prefsOfVector (prototype .TRUST_SAFETY_PRO)) emptyRules
      []).confidence = 1 :=
  C4_prototype_classification .TRUST_SAFETY_PRO emptyRules
    (by intro rule h; simp [emptyRules] at h)

/-- C9: when the nearest persona has a rule entry and either a bound
condition fails or the distance confidence is below `min_confidence`,
the classifier returns the configured fallback persona
(`hybrid_trade` by default) with confidence fixed at `0.5` and a
reason noting the fallback; and with a missing rules file
(`rules.json` absent, `_load_rules` returns `{}`) classification
degrades to the distance-based result alone — and, being a total
function, never raises. -/
theorem C9_rule_fallback_and_missing_config :
    (∀ (cfg : RulesConfig) (v : PersonaVector) (rule : PersonaRule) (cands : List ℚ),
      cfg.persona_rules (nearestProto v).1 = some rule →
      ¬ (conditions_met rule v = true ∧
         confGeB ((nearestProto v).2.getD 0) (rule.min_confidence.getD 0.5) = true) →
      (apply_rules_threshold cfg v cands).1 =
        cfg.fallback_persona.getD PersonaType.HYBRID_TRADE ∧
      (cands = [] → (apply_rules_threshold cfg v cands).2.1 = 0.5 ∧
        (apply_rules_threshold cfg v cands).2.2 =
          "규칙 미충족, Fallback 사용: " ++
            personaName (cfg.fallback_persona.getD PersonaType.HYBRID_TRADE))) ∧
    (∀ v : PersonaVector,
      apply_rules_threshold emptyRules v [] =
        ((nearestProto v).1, distConfidence ((nearestProto v).2.getD 0),
         "벡터 거리 기반: " ++ personaName (nearestProto v).1)) := by
  constructor
  · intro cfg v rule cands hr hfail
    have hcond : (conditions_met rule v &&
        confGeB ((nearestProto v).2.getD 0) (rule.min_confidence.getD 0.5)) = false := by
      cases hcm : conditions_met rule v <;>
        cases hcg : confGeB ((nearestProto v).2.getD 0) (rule.min_confidence.getD 0.5) <;>
          simp_all
    constructor
    · by_cases hce : cands.isEmpty <;>
        simp [apply_rules_threshold, hr, hcond, hce]
    · intro hcands
      subst hcands
      simp [apply_rules_threshold, hr, hcond]
  · intro v
    simp [apply_rules_threshold, emptyRules]

/-- Witness for C9: the unsatisfiable `strict_rule` forces the fallback
at the `HYBRID_TRADE` prototype. -/
theorem C9_rule_fallback_witness :
    (apply_rules_threshold strict_rules_cfg (prototype .HYBRID_TRADE) []).1 =
      PersonaType.HYBRID_TRADE ∧
    (apply_rules_threshold strict_rules_cfg (prototype .HYBRID_TRADE) []).2.1 = 0.5 := by
  have h := C9_rule_fallback_and_missing_config.1 strict_rules_cfg
    (prototype .HYBRID_TRADE) strict_rule [] rfl
    (by intro hcontra; exact absurd hcontra.2 (by decide))
  exact ⟨h.1, (h.2 rfl).1⟩

/-- Witness for C8 with one seller and one matching product. -/
theorem C8_two_stage_scoring_witness :
    ∃ sel ∈ [exSeller],
      (seller_entry (fun _ => some (50:ℚ)) exSeller).persona_score =
        calculate_persona_score (fun _ => some (50:ℚ)) sel.persona_vector ∧
      (seller_entry (fun _ => some (50:ℚ)) exSeller).quality_score =
        0.5 * min (sel.avg_rating / 5) 1 + 0.3 * min (sel.total_sales / 1000) 1 +
        0.2 * max 0 (1 - sel.response_time_hours / 24) ∧
      (seller_entry (fun _ => some (50:ℚ)) exSeller).final_score =
        0.7 * (seller_entry (fun _ => some (50:ℚ)) exSeller).persona_score +
        0.3 * (seller_entry (fun _ => some (50:ℚ)) exSeller).quality_score :=
  (C8_two_stage_scoring (fun _ => some 50) [exSeller] [] []).1
    (seller_entry (fun _ => some 50) exSeller)
    (by simp [match_user_seller_persona])

end ReCo
